import Mathlib

/-!
Verification of the endpoint/connection registry and message-dispatch layer of
vkviyu/nexus (packages transport/server/websocket and transport/server/response).

The Go code is embedded shallowly:
- Go maps become association lists with unique keys; map indexing is List.lookup.
- Nil pointers and nil channels become Option; a nil *Message entry in a slice is none.
- Each send operation returns a triple: the message value after the call (the Go
  receivers are pointers and the ensureValid functions mutate them in place), the
  trace of conn.WriteMessage calls issued, and the returned error (none = Go nil).
- A live connection is observable to this layer only through the outcome of its
  WriteMessage method, modelled as a function from frame kind and payload to an
  optional transport-error string (none = the write succeeded).
- Endpoint fields that the dispatch layer never reads (the auth and upgrade hooks)
  are omitted from the embedding.
-/

namespace Nexus

/-- Bytes models a Go byte slice payload. -/
abbrev Bytes := List Nat

/-- ConnId represents the ID of a WebSocket connection (Go: type ConnId = string). -/
abbrev ConnId := String

/-- EndpointPath represents the path of a WebSocket endpoint (Go: type EndpointPath = string). -/
abbrev EndpointPath := String

/-- MsgType models the Go MessageType int tag: 1 text, 2 binary, 0 the zero value (unset). -/
abbrev MsgType := Nat

/-- TextMessage represents a text message. -/
def TextMessage : MsgType := 1

/-- BinaryMessage represents a binary message. -/
def BinaryMessage : MsgType := 2

/-- DefaultMessageType is the configured default kind (Go: var DefaultMessageType = TextMessage). -/
def DefaultMessageType : MsgType := TextMessage

/-- WSConn models a live WebSocket connection: its observable behaviour for the dispatch
layer is the outcome of WriteMessage on a given kind and payload; none means the write
succeeded, some s a transport error with text s, carried as-is. -/
structure WSConn where
  writeResult : MsgType → Bytes → Option String

/-- ConnMap is the Go map from connection id to connection, as an association list. -/
abbrev ConnMap := List (ConnId × WSConn)

/-- MsgChan models a Go channel value: none is the nil channel, some k a live channel
identified by k. -/
abbrev MsgChan := Option Nat

/-- Endpoint carries the fields the dispatch layer reads: the path, the inbound channel
and the connection table. -/
structure Endpoint where
  EndpointPath : EndpointPath
  MsgChan : MsgChan
  ConnMap : ConnMap

/-- EndpointMap is the Go map from endpoint path to endpoint, as an association list. -/
abbrev EndpointMap := List (EndpointPath × Endpoint)

/-- Manager is the top-level registry (Go: struct with the single field EndpointMap). -/
structure Manager where
  EndpointMap : EndpointMap

/-- NewEndpointMap returns the empty map. -/
def NewEndpointMap : EndpointMap := []

/-- EndpointMap.Add is the Go map assignment m[endpointPath] = endpoint: the new binding
replaces any existing binding of that key. Go map iteration order is unspecified, so the
position of the new binding in the list is a free choice of the embedding. -/
def EndpointMap.Add (m : EndpointMap) (endpointPath : EndpointPath) (endpoint : Endpoint) :
    EndpointMap :=
  (endpointPath, endpoint) :: m.filter (fun kv => kv.1 ≠ endpointPath)

/-- NewManager returns a Manager with an empty endpoint map. -/
def NewManager : Manager := ⟨NewEndpointMap⟩

/-- Manager.AddEndpoint registers the endpoint under its own path field. -/
def Manager.AddEndpoint (s : Manager) (endpoint : Endpoint) : Manager :=
  ⟨EndpointMap.Add s.EndpointMap endpoint.EndpointPath endpoint⟩

/-- Manager.GetEndpoint is the Go map index s.EndpointMap[endpointPath]; none models the
nil pointer returned for an absent key. -/
def Manager.GetEndpoint (s : Manager) (endpointPath : EndpointPath) : Option Endpoint :=
  s.EndpointMap.lookup endpointPath

/-- Endpoint.GetConn returns the connection stored under connId, or none (Go nil) when the
id is absent from the table. -/
def Endpoint.GetConn (e : Endpoint) (connId : ConnId) : Option WSConn :=
  e.ConnMap.lookup connId

/-- Manager.GetConn resolves the endpoint, then the connection within it; none when either
step fails (the Go code returns nil in both cases). -/
def Manager.GetConn (s : Manager) (endpointPath : EndpointPath) (connId : ConnId) :
    Option WSConn :=
  match s.GetEndpoint endpointPath with
  | some endpoint => endpoint.GetConn connId
  | none => none

/-- Endpoint.GetConnCount is len(e.ConnMap). -/
def Endpoint.GetConnCount (e : Endpoint) : Nat := e.ConnMap.length

/-- Endpoint.GetMsgChan returns the inbound channel. -/
def Endpoint.GetMsgChan (e : Endpoint) : Nexus.MsgChan := e.MsgChan

/-- Manager.GetConnCount calls Endpoint.GetConnCount on the looked-up endpoint with no nil
check: when the path is unknown the Go receiver is a nil pointer and len(e.ConnMap)
dereferences it, a runtime panic. The outer Option models termination: some n is a normal
return, none is the nil-pointer dereference. -/
def Manager.GetConnCount (s : Manager) (endpointPath : EndpointPath) : Option Nat :=
  (s.GetEndpoint endpointPath).map Endpoint.GetConnCount

/-- Manager.GetMsgChan checks the looked-up endpoint for nil and returns the nil channel
when the path is unknown. The outer Option mirrors Manager.GetConnCount: this accessor
always returns normally, so the result is always some. -/
def Manager.GetMsgChan (s : Manager) (endpointPath : EndpointPath) : Option MsgChan :=
  match s.GetEndpoint endpointPath with
  | none => some none
  | some endpoint => some endpoint.GetMsgChan

/-- EndpointMessage targets a set of connection ids on one endpoint (all of them when the
id list is empty). -/
structure EndpointMessage where
  MessageType : MsgType
  Message : Bytes
  ConnIds : List ConnId

/-- Message is the point-to-point variant: one endpoint path, one connection id. The
payload field is named Message in Go; Lean rejects a projection named after its own
structure, so it is called Msg here. -/
structure Message where
  MessageType : MsgType
  Msg : Bytes
  EndpointPath : EndpointPath
  ConnId : ConnId

/-- MultiMessage is an ordered batch of point-to-point messages; a none entry models a nil
pointer in the Go slice. -/
structure MultiMessage where
  Messages : List (Option Message)

/-- BroadcastMessage targets one endpoint, or every endpoint when the path is empty. -/
structure BroadcastMessage where
  MessageType : MsgType
  EndpointPath : EndpointPath
  Message : Bytes

/-- ensureValidMessageType replaces an unset (zero) kind with the default kind. The Go
function mutates its argument through a pointer; the embedding returns the updated value. -/
def ensureValidMessageType (msg : Message) : Message :=
  if msg.MessageType = 0 then { msg with MessageType := DefaultMessageType } else msg

/-- ensureValidBroadcastMessage is the same normalization for BroadcastMessage. -/
def ensureValidBroadcastMessage (msg : BroadcastMessage) : BroadcastMessage :=
  if msg.MessageType = 0 then { msg with MessageType := DefaultMessageType } else msg

/-- ensureValidEndpointMessage is the same normalization for EndpointMessage. -/
def ensureValidEndpointMessage (msg : EndpointMessage) : EndpointMessage :=
  if msg.MessageType = 0 then { msg with MessageType := DefaultMessageType } else msg

/-- Err is the error taxonomy of the websocket package: ConnNotFoundError,
EndpointNotFoundError, a transport write error carried as-is (writeFail), and the three
aggregate types MultiMessageError, EndpointMessageError, BroadcastMessageError. -/
inductive Err where
  | connNotFound (endpointPath : EndpointPath) (connId : ConnId)
  | endpointNotFound (endpointPath : EndpointPath)
  | writeFail (transportErr : String)
  | multiMessage (errors : List Err)
  | endpointMessage (endpointPath : EndpointPath) (errors : List Err)
  | broadcastMessage (endpointPath : EndpointPath) (errors : List Err)
deriving Repr

/-- WriteEvent records one conn.WriteMessage call issued by the dispatch layer: the
endpoint path and connection id the call-site addressed, the frame kind passed, and the
payload. The path and id are trace labels supplied by each call site. -/
structure WriteEvent where
  path : EndpointPath
  connId : ConnId
  messageType : MsgType
  payload : Bytes
deriving Repr, DecidableEq

/-- writeMessageForConns iterates over the connection map and writes the message to every
connection with the given kind, collecting the errors; the first component is the trace of
write calls, the second the error slice the Go function returns. -/
def writeMessageForConns (path : EndpointPath) (conns : ConnMap) (messageType : MsgType)
    (msg : Bytes) : List WriteEvent × List Err :=
  match conns with
  | [] => ([], [])
  | c :: rest =>
    let r := writeMessageForConns path rest messageType msg
    match c.2.writeResult messageType msg with
    | some werr => (⟨path, c.1, messageType, msg⟩ :: r.1, Err.writeFail werr :: r.2)
    | none => (⟨path, c.1, messageType, msg⟩ :: r.1, r.2)

/-- Message.Send normalizes the kind, resolves the connection through the manager, and on
nil returns ConnNotFoundError; otherwise it writes one frame and returns the transport
error, if any, directly. -/
def Message.Send (m0 : Message) (server : Manager) :
    Message × List WriteEvent × Option Err :=
  let m := ensureValidMessageType m0
  match server.GetConn m.EndpointPath m.ConnId with
  | none => (m, [], some (Err.connNotFound m.EndpointPath m.ConnId))
  | some conn =>
      (m, [⟨m.EndpointPath, m.ConnId, m.MessageType, m.Msg⟩],
        (conn.writeResult m.MessageType m.Msg).map Err.writeFail)

/-- sendEach is the loop body of MultiMessage.Send: nil entries are skipped, every other
entry is sent point-to-point and its error, if any, appended in order. -/
def sendEach (server : Manager) :
    List (Option Message) → List (Option Message) × List WriteEvent × List Err
  | [] => ([], [], [])
  | none :: rest =>
      let r := sendEach server rest
      (none :: r.1, r.2.1, r.2.2)
  | some m :: rest =>
      let s := m.Send server
      let r := sendEach server rest
      (some s.1 :: r.1, s.2.1 ++ r.2.1,
        match s.2.2 with
        | some e => e :: r.2.2
        | none => r.2.2)

/-- MultiMessage.Send returns nil on an empty batch; otherwise it sends every entry and
wraps the collected errors in MultiMessageError when there is at least one. -/
def MultiMessage.Send (mm : MultiMessage) (server : Manager) :
    MultiMessage × List WriteEvent × Option Err :=
  if mm.Messages.isEmpty then (mm, [], none)
  else
    let r := sendEach server mm.Messages
    (⟨r.1⟩, r.2.1, if r.2.2.isEmpty then none else some (Err.multiMessage r.2.2))

/-- broadcastAll is the empty-path loop of BroadcastMessage.Send: it writes to every
connection of every endpoint in the map, concatenating the per-endpoint error slices. -/
def broadcastAll (messageType : MsgType) (msg : Bytes) :
    EndpointMap → List WriteEvent × List Err
  | [] => ([], [])
  | kv :: rest =>
      let w := writeMessageForConns kv.1 kv.2.ConnMap messageType msg
      let r := broadcastAll messageType msg rest
      (w.1 ++ r.1, w.2 ++ r.2)

/-- BroadcastMessage.Send normalizes the kind; with an empty path it writes to every
connection of every endpoint and wraps failures in a BroadcastMessageError with the empty
path; with a non-empty path it resolves the endpoint (EndpointNotFoundError when absent)
and writes to all of its connections, wrapping failures in a BroadcastMessageError with
that path. -/
def BroadcastMessage.Send (m0 : BroadcastMessage) (server : Manager) :
    BroadcastMessage × List WriteEvent × Option Err :=
  let m := ensureValidBroadcastMessage m0
  if m.EndpointPath = "" then
    let r := broadcastAll m.MessageType m.Message server.EndpointMap
    (m, r.1, if r.2.isEmpty then none else some (Err.broadcastMessage m.EndpointPath r.2))
  else
    match server.GetEndpoint m.EndpointPath with
    | none => (m, [], some (Err.endpointNotFound m.EndpointPath))
    | some endpoint =>
        let r := writeMessageForConns m.EndpointPath endpoint.ConnMap m.MessageType m.Message
        (m, r.1, if r.2.isEmpty then none else some (Err.broadcastMessage m.EndpointPath r.2))

/-- Endpoint.sendToIds is the explicit-id loop of Endpoint.SendMessage: a missing id
records ConnNotFoundError and continues; a present id is written to and a failing write
records the transport error. -/
def Endpoint.sendToIds (e : Endpoint) (messageType : MsgType) (msg : Bytes) :
    List ConnId → List WriteEvent × List Err
  | [] => ([], [])
  | connId :: rest =>
      let r := e.sendToIds messageType msg rest
      match e.GetConn connId with
      | none => (r.1, Err.connNotFound e.EndpointPath connId :: r.2)
      | some conn =>
          match conn.writeResult messageType msg with
          | some werr => (⟨e.EndpointPath, connId, messageType, msg⟩ :: r.1,
              Err.writeFail werr :: r.2)
          | none => (⟨e.EndpointPath, connId, messageType, msg⟩ :: r.1, r.2)

/-- Endpoint.SendMessage normalizes the kind; with an empty id list it writes to every
connection in the table, otherwise exactly to the listed ids; the collected errors, when
non-empty, are wrapped in one EndpointMessageError addressed to the endpoint path. -/
def Endpoint.SendMessage (e : Endpoint) (msg0 : EndpointMessage) :
    EndpointMessage × List WriteEvent × Option Err :=
  let msg := ensureValidEndpointMessage msg0
  let r :=
    if msg.ConnIds.isEmpty then
      writeMessageForConns e.EndpointPath e.ConnMap msg.MessageType msg.Message
    else
      e.sendToIds msg.MessageType msg.Message msg.ConnIds
  (msg, r.1, if r.2.isEmpty then none else some (Err.endpointMessage e.EndpointPath r.2))

/-- Sendable is the closed set of message variants that implement Send against a Manager. -/
inductive Sendable where
  | message (m : Message)
  | multiMessage (mm : MultiMessage)
  | broadcastMessage (b : BroadcastMessage)

/-- Manager.SendMessage delegates to the deliver capability of the variant. -/
def Manager.SendMessage (s : Manager) (msg : Sendable) : List WriteEvent × Option Err :=
  match msg with
  | .message m => (m.Send s).2
  | .multiMessage mm => (mm.Send s).2
  | .broadcastMessage b => (b.Send s).2

end Nexus

namespace Nexus

/-! Closed-form characterizations of the send loops, proved by induction. These are shared
helper lemmas for the claim theorems below. -/

/-- ensureValidMessageType changes only the kind field, and only when it is zero. -/
theorem ensureValidMessageType_eq (m : Message) :
    ensureValidMessageType m =
      { m with MessageType := if m.MessageType = 0 then DefaultMessageType else m.MessageType } := by
  unfold ensureValidMessageType
  split <;> simp_all

/-- ensureValidBroadcastMessage changes only the kind field, and only when it is zero. -/
theorem ensureValidBroadcastMessage_eq (m : BroadcastMessage) :
    ensureValidBroadcastMessage m =
      { m with MessageType := if m.MessageType = 0 then DefaultMessageType else m.MessageType } := by
  unfold ensureValidBroadcastMessage
  split <;> simp_all

/-- ensureValidEndpointMessage changes only the kind field, and only when it is zero. -/
theorem ensureValidEndpointMessage_eq (m : EndpointMessage) :
    ensureValidEndpointMessage m =
      { m with MessageType := if m.MessageType = 0 then DefaultMessageType else m.MessageType } := by
  unfold ensureValidEndpointMessage
  split <;> simp_all

/-- writeMessageForConns issues one write per connection in the table, in table order, and
returns exactly the errors of the failing writes. -/
theorem writeMessageForConns_eq (path : EndpointPath) (conns : ConnMap) (mt : MsgType)
    (msg : Bytes) :
    writeMessageForConns path conns mt msg =
      (conns.map fun c => ⟨path, c.1, mt, msg⟩,
       conns.filterMap fun c => (c.2.writeResult mt msg).map Err.writeFail) := by
  induction conns with
  | nil => rfl
  | cons c rest ih =>
      simp only [writeMessageForConns, ih, List.map_cons, List.filterMap_cons]
      cases h : c.2.writeResult mt msg <;> simp [h]

/-- sendToIds issues one write per listed id that is present in the table, and returns one
error per listed id that is absent or whose write failed, in list order. -/
theorem sendToIds_eq (e : Endpoint) (mt : MsgType) (msg : Bytes) (ids : List ConnId) :
    e.sendToIds mt msg ids =
      (ids.filterMap fun cid =>
         (e.GetConn cid).map fun _ => (⟨e.EndpointPath, cid, mt, msg⟩ : WriteEvent),
       ids.filterMap fun cid =>
         match e.GetConn cid with
         | none => some (Err.connNotFound e.EndpointPath cid)
         | some conn => (conn.writeResult mt msg).map Err.writeFail) := by
  induction ids with
  | nil => rfl
  | cons cid rest ih =>
      simp only [Endpoint.sendToIds, ih, List.filterMap_cons]
      cases h : e.GetConn cid with
      | none => simp [h]
      | some conn => cases h2 : conn.writeResult mt msg <;> simp [h, h2]

/-- sendEach sends every non-nil entry point-to-point in order: the updated entries, the
concatenated write traces, and the sub-errors in the original entry order. -/
theorem sendEach_eq (server : Manager) (ms : List (Option Message)) :
    sendEach server ms =
      (ms.map fun om => om.map fun m => (m.Send server).1,
       (ms.map fun om =>
         match om with
         | none => []
         | some m => (m.Send server).2.1).flatten,
       ms.filterMap fun om => om.bind fun m => (m.Send server).2.2) := by
  induction ms with
  | nil => rfl
  | cons om rest ih =>
      cases om with
      | none => simp [sendEach, ih]
      | some m =>
          simp only [sendEach, ih, List.map_cons, List.filterMap_cons, List.flatten_cons]
          cases h : (m.Send server).2.2 <;> simp [h]

/-- broadcastAll writes to every connection of every endpoint in the map and concatenates
the per-endpoint error slices in map order. -/
theorem broadcastAll_eq (mt : MsgType) (msg : Bytes) (em : EndpointMap) :
    broadcastAll mt msg em =
      ((em.map fun kv =>
          kv.2.ConnMap.map fun c => (⟨kv.1, c.1, mt, msg⟩ : WriteEvent)).flatten,
       (em.map fun kv =>
          kv.2.ConnMap.filterMap fun c => (c.2.writeResult mt msg).map Err.writeFail).flatten) := by
  induction em with
  | nil => rfl
  | cons kv rest ih => simp [broadcastAll, ih, writeMessageForConns_eq]

/-- length of a filterMap built by mapping over an optional-valued function equals the
number of elements on which that function is some. -/
theorem length_filterMap_map {α β γ : Type} (l : List α) (g : α → Option β) (h : β → γ) :
    (l.filterMap fun x => (g x).map h).length = (l.filter fun x => (g x).isSome).length := by
  induction l with
  | nil => rfl
  | cons a t ih => cases hg : g a <;> simp [hg, ih]

/-- Message.Send in closed form over the original fields. -/
theorem Message.Send_eq (m : Message) (server : Manager) :
    m.Send server =
      (let mt := if m.MessageType = 0 then DefaultMessageType else m.MessageType
       match server.GetConn m.EndpointPath m.ConnId with
       | none =>
           ({ m with MessageType := mt }, [],
             some (Err.connNotFound m.EndpointPath m.ConnId))
       | some conn =>
           ({ m with MessageType := mt },
             [⟨m.EndpointPath, m.ConnId, mt, m.Msg⟩],
             (conn.writeResult mt m.Msg).map Err.writeFail)) := by
  unfold Message.Send
  rw [ensureValidMessageType_eq]

/-- the message value coming back from Message.Send is exactly the normalized input. -/
theorem Message.Send_fst_point (m : Message) (server : Manager) :
    (m.Send server).1 = ensureValidMessageType m := by
  unfold Message.Send
  cases h : server.GetConn (ensureValidMessageType m).EndpointPath
      (ensureValidMessageType m).ConnId <;> simp [h]

/-- the message value coming back from BroadcastMessage.Send is the normalized input. -/
theorem BroadcastMessage.Send_fst_broadcast (m : BroadcastMessage) (server : Manager) :
    (m.Send server).1 = ensureValidBroadcastMessage m := by
  unfold BroadcastMessage.Send
  dsimp only
  split
  · rfl
  · split <;> rfl

/-- the message value coming back from Endpoint.SendMessage is the normalized input. -/
theorem Endpoint.SendMessage_fst (e : Endpoint) (msg : EndpointMessage) :
    (e.SendMessage msg).1 = ensureValidEndpointMessage msg := rfl

/-- an aggregate built behind an emptiness check is none exactly on the empty error list. -/
theorem aggregate_if_eq (errs : List Err) (wrap : List Err → Err) :
    ((if errs.isEmpty then none else some (wrap errs)) = none ↔ errs = []) ∧
    (errs ≠ [] → (if errs.isEmpty then none else some (wrap errs)) = some (wrap errs)) := by
  cases errs <;> simp

/-- Endpoint.SendMessage in closed form over the original fields. -/
theorem Endpoint.SendMessage_eq (e : Endpoint) (em : EndpointMessage) :
    e.SendMessage em =
      (let mt := if em.MessageType = 0 then DefaultMessageType else em.MessageType
       let r :=
         if em.ConnIds.isEmpty then
           writeMessageForConns e.EndpointPath e.ConnMap mt em.Message
         else e.sendToIds mt em.Message em.ConnIds
       ({ em with MessageType := mt }, r.1,
         if r.2.isEmpty then none else some (Err.endpointMessage e.EndpointPath r.2))) := by
  unfold Endpoint.SendMessage
  rw [ensureValidEndpointMessage_eq]

/-- BroadcastMessage.Send with an empty path in closed form. -/
theorem BroadcastMessage.Send_empty (mt0 : MsgType) (payload : Bytes) (server : Manager) :
    (BroadcastMessage.mk mt0 "" payload).Send server =
      (let mt := if mt0 = 0 then DefaultMessageType else mt0
       let r := broadcastAll mt payload server.EndpointMap
       (BroadcastMessage.mk mt "" payload, r.1,
         if r.2.isEmpty then none else some (Err.broadcastMessage "" r.2))) := by
  unfold BroadcastMessage.Send
  rw [ensureValidBroadcastMessage_eq]
  dsimp only
  rw [if_pos rfl]

/-- BroadcastMessage.Send with a non-empty path in closed form. -/
theorem BroadcastMessage.Send_path (b : BroadcastMessage) (server : Manager)
    (hp : b.EndpointPath ≠ "") :
    b.Send server =
      (let mt := if b.MessageType = 0 then DefaultMessageType else b.MessageType
       match server.GetEndpoint b.EndpointPath with
       | none =>
           ({ b with MessageType := mt }, [], some (Err.endpointNotFound b.EndpointPath))
       | some endpoint =>
           let r := writeMessageForConns b.EndpointPath endpoint.ConnMap mt b.Message
           ({ b with MessageType := mt }, r.1,
             if r.2.isEmpty then none else some (Err.broadcastMessage b.EndpointPath r.2))) := by
  unfold BroadcastMessage.Send
  rw [ensureValidBroadcastMessage_eq]
  dsimp only
  rw [if_neg hp]

/-- the concatenated error slice of a global broadcast has exactly one entry per failing
write, summed over the endpoints. -/
theorem broadcast_fail_length (mt : MsgType) (payload : Bytes) (em : EndpointMap) :
    ((em.map fun kv => kv.2.ConnMap.filterMap fun c =>
        (c.2.writeResult mt payload).map Err.writeFail).flatten).length =
      (em.map fun kv =>
        (kv.2.ConnMap.filter fun c => (c.2.writeResult mt payload).isSome).length).sum := by
  induction em with
  | nil => rfl
  | cons kv rest ih => simp [length_filterMap_map, ih]

/-- C1, amended: a point-to-point send fails with ConnNotFoundError exactly when the
manager resolves no connection for the path and id, which covers both an unregistered
path and a registered endpoint lacking the id; it never returns EndpointNotFoundError. -/
theorem c1_point_to_point_errors (server : Manager) (m : Message) :
    ((m.Send server).2.2 = some (Err.connNotFound m.EndpointPath m.ConnId)
        ↔ server.GetConn m.EndpointPath m.ConnId = none) ∧
    (∀ p, (m.Send server).2.2 ≠ some (Err.endpointNotFound p)) := by
  rw [Message.Send_eq]
  cases h : server.GetConn m.EndpointPath m.ConnId with
  | none => simp
  | some conn =>
      cases h2 : conn.writeResult
          (if m.MessageType = 0 then DefaultMessageType else m.MessageType) m.Msg <;>
        simp [h2]

/-- C1, counterexample to the claim as stated: on an empty Manager the path "/missing" is
unregistered, yet the point-to-point send returns ConnNotFoundError, not
EndpointNotFoundError, so the claimed "endpoint not found iff path unregistered" fails. -/
theorem c1_counterexample :
    (Manager.mk []).GetEndpoint "/missing" = none ∧
    (Message.Send ⟨1, [], "/missing", "u1"⟩ (Manager.mk [])).2.2
        = some (Err.connNotFound "/missing" "u1") ∧
    (Message.Send ⟨1, [], "/missing", "u1"⟩ (Manager.mk [])).2.2
        ≠ some (Err.endpointNotFound "/missing") := by
  refine ⟨rfl, rfl, fun h => ?_⟩
  rw [show (Message.Send ⟨1, [], "/missing", "u1"⟩ (Manager.mk [])).2.2
      = some (Err.connNotFound "/missing" "u1") from rfl] at h
  simp at h

/-- C8: at the failing input (any unknown path, here "/missing" on an empty Manager) the
two read-only accessors diverge: GetConnCount calls a method on the nil endpoint pointer,
a nil dereference modelled by none, while GetMsgChan guards and returns the nil-channel
sentinel, modelled by some none. -/
theorem c8_unknown_path_accessors :
    (Manager.mk []).GetConnCount "/missing" = none ∧
    (Manager.mk []).GetMsgChan "/missing" = some none :=
  ⟨rfl, rfl⟩

/-- C9: registering an endpoint inserts it under its own path key and lookup returns it;
registering a second endpoint under the same path silently replaces the first, lookup then
returning the most recent one. Neither operation can report an error (both return only the
updated registry). -/
theorem c9_register_last_write_wins (s : Manager) (e1 e2 : Endpoint)
    (h : e1.EndpointPath = e2.EndpointPath) :
    ((s.AddEndpoint e1).GetEndpoint e1.EndpointPath = some e1) ∧
    (((s.AddEndpoint e1).AddEndpoint e2).GetEndpoint e1.EndpointPath = some e2) := by
  constructor
  · simp [Manager.AddEndpoint, Manager.GetEndpoint, EndpointMap.Add, List.lookup]
  · simp [Manager.AddEndpoint, Manager.GetEndpoint, EndpointMap.Add, List.lookup, h]

/-- C9 witness: a concrete double registration under the path "/a" where lookup returns
the second endpoint. -/
theorem c9_witness :
    ((Endpoint.mk "/a" none []).EndpointPath = (Endpoint.mk "/a" (some 1) []).EndpointPath) ∧
    ((NewManager.AddEndpoint (Endpoint.mk "/a" none [])).GetEndpoint "/a"
        = some (Endpoint.mk "/a" none [])) ∧
    (((NewManager.AddEndpoint (Endpoint.mk "/a" none [])).AddEndpoint
        (Endpoint.mk "/a" (some 1) [])).GetEndpoint "/a"
        = some (Endpoint.mk "/a" (some 1) [])) :=
  ⟨rfl, (c9_register_last_write_wins NewManager ⟨"/a", none, []⟩ ⟨"/a", some 1, []⟩ rfl).1,
    (c9_register_last_write_wins NewManager ⟨"/a", none, []⟩ ⟨"/a", some 1, []⟩ rfl).2⟩

/-- C10: every send operation first normalizes an unset kind in place through the pointer
receiver: afterwards the kind field of the message the caller holds equals the default
kind and every other field is unchanged, whatever the outcome of the call. -/
theorem c10_send_normalizes_in_place (server : Manager) (e : Endpoint) (m : Message)
    (b : BroadcastMessage) (em : EndpointMessage) :
    (m.MessageType = 0 → (m.Send server).1 = { m with MessageType := DefaultMessageType }) ∧
    (b.MessageType = 0 → (b.Send server).1 = { b with MessageType := DefaultMessageType }) ∧
    (em.MessageType = 0 →
      (e.SendMessage em).1 = { em with MessageType := DefaultMessageType }) := by
  refine ⟨fun h => ?_, fun h => ?_, fun h => ?_⟩
  · rw [Message.Send_fst_point, ensureValidMessageType_eq, if_pos h]
  · rw [BroadcastMessage.Send_fst_broadcast, ensureValidBroadcastMessage_eq, if_pos h]
  · rw [Endpoint.SendMessage_fst, ensureValidEndpointMessage_eq, if_pos h]

/-- C10 witness: a concrete zero-kind message of each variant comes back from its send
with the default kind and all other fields intact. -/
theorem c10_witness :
    ((Message.mk 0 [5] "/chat" "u1").Send (Manager.mk [])).1
        = Message.mk DefaultMessageType [5] "/chat" "u1" ∧
    ((BroadcastMessage.mk 0 "/chat" [5]).Send (Manager.mk [])).1
        = BroadcastMessage.mk DefaultMessageType "/chat" [5] ∧
    ((Endpoint.mk "/chat" none []).SendMessage (EndpointMessage.mk 0 [5] [])).1
        = EndpointMessage.mk DefaultMessageType [5] [] :=
  ⟨(c10_send_normalizes_in_place (Manager.mk []) ⟨"/chat", none, []⟩ ⟨0, [5], "/chat", "u1"⟩
      ⟨0, "/chat", [5]⟩ ⟨0, [5], []⟩).1 rfl,
   (c10_send_normalizes_in_place (Manager.mk []) ⟨"/chat", none, []⟩ ⟨0, [5], "/chat", "u1"⟩
      ⟨0, "/chat", [5]⟩ ⟨0, [5], []⟩).2.1 rfl,
   (c10_send_normalizes_in_place (Manager.mk []) ⟨"/chat", none, []⟩ ⟨0, [5], "/chat", "u1"⟩
      ⟨0, "/chat", [5]⟩ ⟨0, [5], []⟩).2.2 rfl⟩

/-- characterization of a guarded broadcast aggregate whose error list has length n. -/
theorem broadcast_result_characterization (E : List Err) (n : Nat) (hlen : E.length = n)
    (p : EndpointPath) :
    ((if E.isEmpty then none else some (Err.broadcastMessage p E)) = none ↔ n = 0) ∧
    (∀ errs, (if E.isEmpty then none else some (Err.broadcastMessage p E))
        = some (Err.broadcastMessage p errs) → errs.length = n) ∧
    (n ≠ 0 → ∃ errs, (if E.isEmpty then none else some (Err.broadcastMessage p E))
        = some (Err.broadcastMessage p errs) ∧ errs.length = n) := by
  subst hlen
  cases E with
  | nil => simp
  | cons a t =>
      refine ⟨by simp, fun errs h => ?_, fun _ => ⟨a :: t, by simp, rfl⟩⟩
      rw [if_neg (by simp)] at h
      injection h with h1
      injection h1 with hp herrs
      subst herrs
      rfl

/-- C2: a broadcast with an empty endpoint path attempts a write to every connection of
every endpoint; the result is nil exactly when no write fails, and otherwise one
BroadcastMessageError addressed with the empty path whose error count equals the number of
connections whose write failed, with no false positives or negatives. -/
theorem c2_global_broadcast (server : Manager) (mt0 : MsgType) (payload : Bytes) :
    let mt := if mt0 = 0 then DefaultMessageType else mt0
    let r := (BroadcastMessage.mk mt0 "" payload).Send server
    let failCount := (server.EndpointMap.map fun kv =>
        (kv.2.ConnMap.filter fun c => (c.2.writeResult mt payload).isSome).length).sum
    (∀ kv ∈ server.EndpointMap, ∀ c ∈ kv.2.ConnMap,
        (⟨kv.1, c.1, mt, payload⟩ : WriteEvent) ∈ r.2.1) ∧
    (r.2.2 = none ↔ failCount = 0) ∧
    (∀ errs, r.2.2 = some (Err.broadcastMessage "" errs) → errs.length = failCount) ∧
    (failCount ≠ 0 → ∃ errs, r.2.2 = some (Err.broadcastMessage "" errs) ∧
        errs.length = failCount) := by
  dsimp only
  rw [BroadcastMessage.Send_empty]
  dsimp only
  rw [broadcastAll_eq]
  dsimp only
  have hchar := broadcast_result_characterization
    ((server.EndpointMap.map fun kv => kv.2.ConnMap.filterMap fun c =>
        (c.2.writeResult (if mt0 = 0 then DefaultMessageType else mt0) payload).map
          Err.writeFail).flatten)
    ((server.EndpointMap.map fun kv =>
        (kv.2.ConnMap.filter fun c =>
          (c.2.writeResult (if mt0 = 0 then DefaultMessageType else mt0) payload).isSome).length).sum)
    (broadcast_fail_length _ _ _) ""
  exact ⟨fun kv hkv c hc =>
      List.mem_flatten.mpr ⟨_, List.mem_map_of_mem _ hkv, List.mem_map_of_mem _ hc⟩,
    hchar.1, hchar.2.1, hchar.2.2⟩

/-- C2 witness: a concrete manager with two endpoints and three connections of which
exactly two writes fail; the broadcast returns one aggregate with the empty path and two
errors. -/
theorem c2_witness :
    ∃ errs, ((BroadcastMessage.mk 0 "" [5]).Send
        ⟨[("/a", ⟨"/a", none, [("u1", ⟨fun _ _ => none⟩)]⟩),
          ("/b", ⟨"/b", none,
            [("u2", ⟨fun _ _ => some "boom"⟩), ("u3", ⟨fun _ _ => some "bam"⟩)]⟩)]⟩).2.2
      = some (Err.broadcastMessage "" errs) ∧ errs.length = 2 :=
  (c2_global_broadcast
      ⟨[("/a", ⟨"/a", none, [("u1", ⟨fun _ _ => none⟩)]⟩),
        ("/b", ⟨"/b", none,
          [("u2", ⟨fun _ _ => some "boom"⟩), ("u3", ⟨fun _ _ => some "bam"⟩)]⟩)]⟩
      0 [5]).2.2.2 (by decide)

/-- C3: an EndpointMessage with an empty id list attempts one write per connection in the
table (vacuous success on an empty table); with a non-empty id list it attempts exactly
the listed ids, recording one ConnNotFoundError per absent id while continuing with the
rest; the result is nil exactly when no failure occurred and otherwise one
EndpointMessageError addressed to the endpoint path carrying all collected sub-errors in
order. -/
theorem c3_endpoint_multicast (e : Endpoint) (mt0 : MsgType) (payload : Bytes)
    (ids : List ConnId) :
    let mt := if mt0 = 0 then DefaultMessageType else mt0
    let r := e.SendMessage ⟨mt0, payload, ids⟩
    let idErrs := ids.filterMap fun cid =>
      match e.GetConn cid with
      | none => some (Err.connNotFound e.EndpointPath cid)
      | some conn => (conn.writeResult mt payload).map Err.writeFail
    let tableErrs := e.ConnMap.filterMap fun c =>
      (c.2.writeResult mt payload).map Err.writeFail
    (ids = [] →
        r.2.1 = e.ConnMap.map fun c => (⟨e.EndpointPath, c.1, mt, payload⟩ : WriteEvent)) ∧
    (ids = [] → e.ConnMap = [] → r.2.2 = none) ∧
    (ids = [] → ((r.2.2 = none ↔ tableErrs = []) ∧
        (tableErrs ≠ [] → r.2.2 = some (Err.endpointMessage e.EndpointPath tableErrs)))) ∧
    (ids ≠ [] → r.2.1 = ids.filterMap fun cid =>
        (e.GetConn cid).map fun _ => (⟨e.EndpointPath, cid, mt, payload⟩ : WriteEvent)) ∧
    (ids ≠ [] → ((r.2.2 = none ↔ idErrs = []) ∧
        (idErrs ≠ [] → r.2.2 = some (Err.endpointMessage e.EndpointPath idErrs)))) := by
  dsimp only
  rw [Endpoint.SendMessage_eq]
  dsimp only
  cases ids with
  | nil =>
      rw [writeMessageForConns_eq]
      refine ⟨fun _ => rfl, fun _ hc => by simp [hc], fun _ => ?_, fun h => absurd rfl h,
        fun h => absurd rfl h⟩
      exact aggregate_if_eq _ _
  | cons cid rest =>
      rw [if_neg (by simp)]
      rw [sendToIds_eq]
      refine ⟨fun h => List.noConfusion h, fun h => List.noConfusion h,
        fun h => List.noConfusion h, fun _ => rfl, fun _ => ?_⟩
      exact aggregate_if_eq _ _

/-- C3 witness: on an endpoint holding the single connection "u1", the explicit id list
with the absent id "ghost" and the present id "u1" yields one aggregate addressed to
"/chat" containing exactly the one ConnNotFoundError. -/
theorem c3_witness :
    ((["ghost", "u1"] : List ConnId) ≠ []) ∧
    ((Endpoint.mk "/chat" none [("u1", ⟨fun _ _ => none⟩)]).SendMessage
        ⟨0, [7], ["ghost", "u1"]⟩).2.2
      = some (Err.endpointMessage "/chat" [Err.connNotFound "/chat" "ghost"]) :=
  ⟨fun h => List.noConfusion h,
    ((c3_endpoint_multicast ⟨"/chat", none, [("u1", ⟨fun _ _ => none⟩)]⟩ 0 [7]
        ["ghost", "u1"]).2.2.2.2 (fun h => List.noConfusion h)).2
      (fun h => List.noConfusion h)⟩

/-- C4: a MultiMessage send succeeds on an empty batch; nil entries are skipped without
producing an error; each non-nil entry is delivered independently through the
point-to-point send, the batch trace being the concatenation of the sub-traces; the
result is an aggregate exactly when at least one sub-send failed, and the aggregate
carries the failing sub-errors in the original batch order. -/
theorem c4_multiMessage_batch (server : Manager) (ms : List (Option Message)) :
    let r := (MultiMessage.mk ms).Send server
    let subErrs := ms.filterMap fun om => om.bind fun m => (m.Send server).2.2
    (ms = [] → r.2.2 = none) ∧
    (r.2.1 = (ms.map fun om =>
        match om with
        | none => []
        | some m => (m.Send server).2.1).flatten) ∧
    (r.2.2 = none ↔ subErrs = []) ∧
    (subErrs ≠ [] → r.2.2 = some (Err.multiMessage subErrs)) := by
  dsimp only
  cases ms with
  | nil => exact ⟨fun _ => rfl, rfl, by simp [MultiMessage.Send], fun h => absurd rfl h⟩
  | cons om rest =>
      unfold MultiMessage.Send
      rw [if_neg (by simp)]
      rw [sendEach_eq]
      exact ⟨fun h => List.noConfusion h, rfl, (aggregate_if_eq _ _).1,
        (aggregate_if_eq _ _).2⟩

/-- C4 witness: a batch of a nil entry, a message to the absent id "u9" and a message to
the present id "u1" produces one MultiMessageError containing exactly the one
ConnNotFoundError, in batch order. -/
theorem c4_witness :
    ((MultiMessage.mk
        [none, some ⟨1, [5], "/chat", "u9"⟩, some ⟨1, [5], "/chat", "u1"⟩]).Send
      ⟨[("/chat", ⟨"/chat", none, [("u1", ⟨fun _ _ => none⟩)]⟩)]⟩).2.2
      = some (Err.multiMessage [Err.connNotFound "/chat" "u9"]) :=
  (c4_multiMessage_batch ⟨[("/chat", ⟨"/chat", none, [("u1", ⟨fun _ _ => none⟩)]⟩)]⟩
      [none, some ⟨1, [5], "/chat", "u9"⟩, some ⟨1, [5], "/chat", "u1"⟩]).2.2.2
    (fun h => List.noConfusion h)

/-- C5: a broadcast with a non-empty path returns the distinct top-level
EndpointNotFoundError when the path is unregistered; when it is registered, every
connection of that endpoint receives one write attempt, the result is nil exactly when
every write succeeds, and otherwise one BroadcastMessageError addressed to that path
containing exactly the errors of the failed writes. -/
theorem c5_targeted_broadcast (server : Manager) (b : BroadcastMessage)
    (hp : b.EndpointPath ≠ "") :
    let mt := if b.MessageType = 0 then DefaultMessageType else b.MessageType
    let r := b.Send server
    (server.GetEndpoint b.EndpointPath = none →
        r.2.2 = some (Err.endpointNotFound b.EndpointPath)) ∧
    (∀ endpoint, server.GetEndpoint b.EndpointPath = some endpoint →
      let connErrs := endpoint.ConnMap.filterMap fun c =>
        (c.2.writeResult mt b.Message).map Err.writeFail
      (r.2.1 = endpoint.ConnMap.map fun c =>
          (⟨b.EndpointPath, c.1, mt, b.Message⟩ : WriteEvent)) ∧
      (r.2.2 = none ↔ connErrs = []) ∧
      (connErrs ≠ [] → r.2.2 = some (Err.broadcastMessage b.EndpointPath connErrs) ∧
          connErrs.length = (endpoint.ConnMap.filter fun c =>
            (c.2.writeResult mt b.Message).isSome).length)) := by
  dsimp only
  rw [BroadcastMessage.Send_path b server hp]
  dsimp only
  cases h : server.GetEndpoint b.EndpointPath with
  | none => exact ⟨fun _ => rfl, fun ep hep => Option.noConfusion hep⟩
  | some endpoint =>
      refine ⟨fun hn => Option.noConfusion hn, fun ep hep => ?_⟩
      injection hep with hep2
      subst hep2
      dsimp only
      rw [writeMessageForConns_eq]
      dsimp only
      exact ⟨rfl, (aggregate_if_eq _ _).1,
        fun hne => ⟨(aggregate_if_eq _ _).2 hne, length_filterMap_map _ _ _⟩⟩

/-- C5 witness: the spec scenario: endpoint "/chat" with connections "u1" and "u2"; with
both writes succeeding the broadcast returns nil; with the write to "u2" failing it
returns one aggregate addressed to "/chat" with exactly one error. -/
theorem c5_witness :
    (("/chat" : EndpointPath) ≠ "") ∧
    ((BroadcastMessage.mk 0 "/chat" [104, 105]).Send
        ⟨[("/chat", ⟨"/chat", none,
          [("u1", ⟨fun _ _ => none⟩), ("u2", ⟨fun _ _ => none⟩)]⟩)]⟩).2.2 = none ∧
    ((BroadcastMessage.mk 0 "/chat" [104, 105]).Send
        ⟨[("/chat", ⟨"/chat", none,
          [("u1", ⟨fun _ _ => none⟩), ("u2", ⟨fun _ _ => some "boom"⟩)]⟩)]⟩).2.2
      = some (Err.broadcastMessage "/chat" [Err.writeFail "boom"]) := by
  refine ⟨by simp, ?_, ?_⟩
  · exact ((c5_targeted_broadcast
        ⟨[("/chat", ⟨"/chat", none,
          [("u1", ⟨fun _ _ => none⟩), ("u2", ⟨fun _ _ => none⟩)]⟩)]⟩
        ⟨0, "/chat", [104, 105]⟩ (by simp)).2 _ rfl).2.1.mpr rfl
  · exact (((c5_targeted_broadcast
        ⟨[("/chat", ⟨"/chat", none,
          [("u1", ⟨fun _ _ => none⟩), ("u2", ⟨fun _ _ => some "boom"⟩)]⟩)]⟩
        ⟨0, "/chat", [104, 105]⟩ (by simp)).2 _ rfl).2.2
      (fun h => List.noConfusion h)).1

/-- every write issued by writeMessageForConns carries the kind it was given. -/
theorem writeMessageForConns_event_type (path : EndpointPath) (conns : ConnMap)
    (mt : MsgType) (msg : Bytes) :
    ∀ ev ∈ (writeMessageForConns path conns mt msg).1, ev.messageType = mt := by
  rw [writeMessageForConns_eq]
  intro ev hev
  rcases List.mem_map.mp hev with ⟨c, hc, rfl⟩
  rfl

/-- every write issued by sendToIds carries the kind it was given. -/
theorem sendToIds_event_type (e : Endpoint) (mt : MsgType) (msg : Bytes)
    (ids : List ConnId) :
    ∀ ev ∈ (e.sendToIds mt msg ids).1, ev.messageType = mt := by
  rw [sendToIds_eq]
  intro ev hev
  rcases List.mem_filterMap.mp hev with ⟨cid, hcid, hsome⟩
  rcases Option.map_eq_some'.mp hsome with ⟨conn, hconn, rfl⟩
  rfl

/-- every write issued by broadcastAll carries the kind it was given. -/
theorem broadcastAll_event_type (mt : MsgType) (msg : Bytes) (em : EndpointMap) :
    ∀ ev ∈ (broadcastAll mt msg em).1, ev.messageType = mt := by
  rw [broadcastAll_eq]
  intro ev hev
  rcases List.mem_flatten.mp hev with ⟨l, hl, hevl⟩
  rcases List.mem_map.mp hl with ⟨kv, hkv, rfl⟩
  rcases List.mem_map.mp hevl with ⟨c, hc, rfl⟩
  rfl

/-- every write issued by a point-to-point send carries the normalized kind. -/
theorem Message.Send_event_type (m : Message) (server : Manager) :
    ∀ ev ∈ (m.Send server).2.1,
      ev.messageType = if m.MessageType = 0 then DefaultMessageType else m.MessageType := by
  rw [Message.Send_eq]
  dsimp only
  cases h : server.GetConn m.EndpointPath m.ConnId with
  | none => intro ev hev; exact absurd hev (List.not_mem_nil ev)
  | some conn =>
      intro ev hev
      rw [List.mem_singleton] at hev
      subst hev
      rfl

/-- C6: in all four dispatch modes a message whose kind field is zero is normalized
before any delivery attempt, so every frame written for it carries the default kind. -/
theorem c6_zero_kind_default (server : Manager) (e : Endpoint) (m : Message)
    (ms : List (Option Message)) (em : EndpointMessage) (b : BroadcastMessage) :
    (m.MessageType = 0 → ∀ ev ∈ (m.Send server).2.1, ev.messageType = DefaultMessageType) ∧
    ((∀ m0, some m0 ∈ ms → m0.MessageType = 0) →
        ∀ ev ∈ ((MultiMessage.mk ms).Send server).2.1,
          ev.messageType = DefaultMessageType) ∧
    (em.MessageType = 0 →
        ∀ ev ∈ (e.SendMessage em).2.1, ev.messageType = DefaultMessageType) ∧
    (b.MessageType = 0 → ∀ ev ∈ (b.Send server).2.1, ev.messageType = DefaultMessageType) := by
  refine ⟨fun h0 ev hev => ?_, fun h0 ev hev => ?_, fun h0 ev hev => ?_, fun h0 ev hev => ?_⟩
  · have ht := Message.Send_event_type m server ev hev
    rwa [if_pos h0] at ht
  · cases ms with
    | nil => simp [MultiMessage.Send] at hev
    | cons om rest =>
        unfold MultiMessage.Send at hev
        rw [if_neg (by simp)] at hev
        rw [sendEach_eq] at hev
        dsimp only at hev
        rcases List.mem_flatten.mp hev with ⟨l, hl, hevl⟩
        rcases List.mem_map.mp hl with ⟨om0, hom0, rfl⟩
        cases om0 with
        | none => exact absurd hevl (List.not_mem_nil ev)
        | some m0 =>
            have ht := Message.Send_event_type m0 server ev hevl
            rwa [if_pos (h0 m0 hom0)] at ht
  · rw [Endpoint.SendMessage_eq] at hev
    dsimp only at hev
    rw [if_pos h0] at hev
    cases hids : em.ConnIds.isEmpty with
    | true =>
        rw [if_pos hids] at hev
        exact writeMessageForConns_event_type e.EndpointPath e.ConnMap _ em.Message ev hev
    | false =>
        rw [if_neg (by simp [hids])] at hev
        exact sendToIds_event_type e _ em.Message em.ConnIds ev hev
  · obtain ⟨bmt, bp, bmsg⟩ := b
    dsimp only at h0 hev
    subst h0
    cases hpe : decide (bp = "") with
    | true =>
        have hp : bp = "" := of_decide_eq_true hpe
        subst hp
        rw [BroadcastMessage.Send_empty] at hev
        dsimp only at hev
        have ht := broadcastAll_event_type _ bmsg server.EndpointMap ev hev
        simpa using ht
    | false =>
        have hp : bp ≠ "" := of_decide_eq_false hpe
        rw [BroadcastMessage.Send_path ⟨0, bp, bmsg⟩ server hp] at hev
        dsimp only at hev
        cases hg : server.GetEndpoint bp with
        | none =>
            rw [hg] at hev
            dsimp only at hev
            exact absurd hev (List.not_mem_nil ev)
        | some endpoint =>
            rw [hg] at hev
            dsimp only at hev
            have ht := writeMessageForConns_event_type bp endpoint.ConnMap _ bmsg ev hev
            simpa using ht

/-- C6 witness: a concrete zero-kind point-to-point message to a live connection: every
frame written for it carries the default kind. -/
theorem c6_witness :
    (Message.mk 0 [5] "/chat" "u1").MessageType = 0 ∧
    ∀ ev ∈ ((Message.mk 0 [5] "/chat" "u1").Send
        ⟨[("/chat", ⟨"/chat", none, [("u1", ⟨fun _ _ => none⟩)]⟩)]⟩).2.1,
      ev.messageType = DefaultMessageType :=
  ⟨rfl, (c6_zero_kind_default ⟨[("/chat", ⟨"/chat", none, [("u1", ⟨fun _ _ => none⟩)]⟩)]⟩
      ⟨"/chat", none, []⟩ ⟨0, [5], "/chat", "u1"⟩ [] ⟨0, [5], []⟩ ⟨0, "/chat", [5]⟩).1 rfl⟩

/-- every error collected by writeMessageForConns is a bare transport write failure. -/
theorem writeMessageForConns_errs_writeFail (path : EndpointPath) (conns : ConnMap)
    (mt : MsgType) (msg : Bytes) :
    ∀ er ∈ (writeMessageForConns path conns mt msg).2, ∃ s, er = Err.writeFail s := by
  rw [writeMessageForConns_eq]
  intro er her
  rcases List.mem_filterMap.mp her with ⟨c, hc, hsome⟩
  rcases Option.map_eq_some'.mp hsome with ⟨s, hs, rfl⟩
  exact ⟨s, rfl⟩

/-- every error collected by broadcastAll is a bare transport write failure. -/
theorem broadcastAll_errs_writeFail (mt : MsgType) (msg : Bytes) (em : EndpointMap) :
    ∀ er ∈ (broadcastAll mt msg em).2, ∃ s, er = Err.writeFail s := by
  rw [broadcastAll_eq]
  intro er her
  rcases List.mem_flatten.mp her with ⟨l, hl, herl⟩
  rcases List.mem_map.mp hl with ⟨kv, hkv, rfl⟩
  rcases List.mem_filterMap.mp herl with ⟨c, hc, hsome⟩
  rcases Option.map_eq_some'.mp hsome with ⟨s, hs, rfl⟩
  exact ⟨s, rfl⟩

/-- a ConnNotFoundError collected by sendToIds names the endpoint path, one of the listed
ids, and that id is indeed absent from the table. -/
theorem sendToIds_connNotFound_inv (e : Endpoint) (mt : MsgType) (msg : Bytes)
    (ids : List ConnId) (pp : EndpointPath) (cid : ConnId)
    (h : Err.connNotFound pp cid ∈ (e.sendToIds mt msg ids).2) :
    pp = e.EndpointPath ∧ cid ∈ ids ∧ e.GetConn cid = none := by
  rw [sendToIds_eq] at h
  rcases List.mem_filterMap.mp h with ⟨cid0, hcid0, hsome⟩
  cases hg : e.GetConn cid0 with
  | none =>
      rw [hg] at hsome
      dsimp only at hsome
      injection hsome with h1
      injection h1 with hpp hcid
      exact ⟨hpp.symm, hcid ▸ hcid0, hcid ▸ hg⟩
  | some conn =>
      rw [hg] at hsome
      dsimp only at hsome
      rcases Option.map_eq_some'.mp hsome with ⟨s, hs, habs⟩
      exact Err.noConfusion habs

/-- inversion of a guarded EndpointMessageError aggregate. -/
theorem endpointMessage_if_inv (X : List Err) (q p : EndpointPath) (errs : List Err)
    (h : (if X.isEmpty then none else some (Err.endpointMessage q X))
        = some (Err.endpointMessage p errs)) : p = q ∧ errs = X := by
  cases X with
  | nil => exact Option.noConfusion h
  | cons a t =>
      rw [if_neg (by simp)] at h
      injection h with h1
      injection h1 with hq herrs
      exact ⟨hq.symm, herrs.symm⟩

/-- inversion of a guarded BroadcastMessageError aggregate. -/
theorem broadcastMessage_if_inv (X : List Err) (q p : EndpointPath) (errs : List Err)
    (h : (if X.isEmpty then none else some (Err.broadcastMessage q X))
        = some (Err.broadcastMessage p errs)) : p = q ∧ errs = X := by
  cases X with
  | nil => exact Option.noConfusion h
  | cons a t =>
      rw [if_neg (by simp)] at h
      injection h with h1
      injection h1 with hq herrs
      exact ⟨hq.symm, herrs.symm⟩

/-- inversion of a guarded MultiMessageError aggregate. -/
theorem multiMessage_if_inv (X : List Err) (errs : List Err)
    (h : (if X.isEmpty then none else some (Err.multiMessage X))
        = some (Err.multiMessage errs)) : errs = X := by
  cases X with
  | nil => exact Option.noConfusion h
  | cons a t =>
      rw [if_neg (by simp)] at h
      injection h with h1
      injection h1 with herrs
      exact herrs.symm

/-- Endpoint.SendMessage in closed form for an empty id list. -/
theorem Endpoint.SendMessage_nil (e : Endpoint) (mt0 : MsgType) (payload : Bytes) :
    e.SendMessage ⟨mt0, payload, []⟩ =
      (let mt := if mt0 = 0 then DefaultMessageType else mt0
       let r := writeMessageForConns e.EndpointPath e.ConnMap mt payload
       (⟨mt, payload, []⟩, r.1,
         if r.2.isEmpty then none else some (Err.endpointMessage e.EndpointPath r.2))) := by
  unfold Endpoint.SendMessage
  rw [ensureValidEndpointMessage_eq]
  rfl

/-- Endpoint.SendMessage in closed form for a non-empty id list. -/
theorem Endpoint.SendMessage_cons (e : Endpoint) (mt0 : MsgType) (payload : Bytes)
    (cid : ConnId) (rest : List ConnId) :
    e.SendMessage ⟨mt0, payload, cid :: rest⟩ =
      (let mt := if mt0 = 0 then DefaultMessageType else mt0
       let r := e.sendToIds mt payload (cid :: rest)
       (⟨mt, payload, cid :: rest⟩, r.1,
         if r.2.isEmpty then none else some (Err.endpointMessage e.EndpointPath r.2))) := by
  unfold Endpoint.SendMessage
  rw [ensureValidEndpointMessage_eq]
  rfl

/-- C7, amended: every aggregate carries its addressing scope: an EndpointMessageError is
addressed to the endpoint path and its ConnNotFoundError sub-errors pinpoint the exact
absent target (path and listed id); a BroadcastMessageError is addressed to the path the
broadcast targeted (empty for a global one) and its sub-errors are bare transport write
failures carrying no target identity; the ConnNotFoundError sub-errors of a MultiMessageError
pinpoint the exact batch entry (path and id) that was absent. -/
theorem c7_aggregate_addressing (e : Endpoint) (em : EndpointMessage) (server : Manager)
    (b : BroadcastMessage) (ms : List (Option Message)) :
    (∀ p errs, (e.SendMessage em).2.2 = some (Err.endpointMessage p errs) →
        p = e.EndpointPath ∧
        ∀ pp cid, Err.connNotFound pp cid ∈ errs →
          pp = e.EndpointPath ∧ cid ∈ em.ConnIds ∧ e.GetConn cid = none) ∧
    (∀ p errs, (b.Send server).2.2 = some (Err.broadcastMessage p errs) →
        p = b.EndpointPath ∧ ∀ er ∈ errs, ∃ s, er = Err.writeFail s) ∧
    (∀ errs, ((MultiMessage.mk ms).Send server).2.2 = some (Err.multiMessage errs) →
        ∀ pp cid, Err.connNotFound pp cid ∈ errs →
          ∃ m, some m ∈ ms ∧ m.EndpointPath = pp ∧ m.ConnId = cid ∧
            server.GetConn pp cid = none) := by
  refine ⟨?_, ?_, ?_⟩
  · intro p errs heq
    obtain ⟨emt, epayload, ids⟩ := em
    dsimp only
    cases ids with
    | nil =>
        rw [Endpoint.SendMessage_nil] at heq
        dsimp only at heq
        obtain ⟨hp2, herrs⟩ := endpointMessage_if_inv _ _ _ _ heq
        subst herrs
        refine ⟨hp2, fun pp cid hmem => ?_⟩
        rcases writeMessageForConns_errs_writeFail _ _ _ _ _ hmem with ⟨s, habs⟩
        exact Err.noConfusion habs
    | cons cid0 rest =>
        rw [Endpoint.SendMessage_cons] at heq
        dsimp only at heq
        obtain ⟨hp2, herrs⟩ := endpointMessage_if_inv _ _ _ _ heq
        subst herrs
        exact ⟨hp2, fun pp cid hmem =>
          sendToIds_connNotFound_inv e _ epayload (cid0 :: rest) pp cid hmem⟩
  · intro p errs heq
    obtain ⟨bmt, bp, bmsg⟩ := b
    dsimp only
    cases hpe : decide (bp = "") with
    | true =>
        have hp : bp = "" := of_decide_eq_true hpe
        subst hp
        rw [BroadcastMessage.Send_empty] at heq
        dsimp only at heq
        obtain ⟨hp2, herrs⟩ := broadcastMessage_if_inv _ _ _ _ heq
        subst herrs
        exact ⟨hp2, fun er hmem => broadcastAll_errs_writeFail _ _ _ er hmem⟩
    | false =>
        have hp : bp ≠ "" := of_decide_eq_false hpe
        rw [BroadcastMessage.Send_path ⟨bmt, bp, bmsg⟩ server hp] at heq
        dsimp only at heq
        cases hg : server.GetEndpoint bp with
        | none =>
            rw [hg] at heq
            dsimp only at heq
            injection heq with h1
            exact Err.noConfusion h1
        | some endpoint =>
            rw [hg] at heq
            dsimp only at heq
            obtain ⟨hp2, herrs⟩ := broadcastMessage_if_inv _ _ _ _ heq
            subst herrs
            exact ⟨hp2, fun er hmem =>
              writeMessageForConns_errs_writeFail _ _ _ _ er hmem⟩
  · intro errs heq pp cid hmem
    cases ms with
    | nil => simp [MultiMessage.Send] at heq
    | cons om rest =>
        unfold MultiMessage.Send at heq
        rw [if_neg (by simp)] at heq
        rw [sendEach_eq] at heq
        dsimp only at heq
        have herrs := multiMessage_if_inv _ _ heq
        subst herrs
        rcases List.mem_filterMap.mp hmem with ⟨om0, hom0, hsome⟩
        cases om0 with
        | none => exact Option.noConfusion hsome
        | some m =>
            rw [Option.some_bind] at hsome
            rw [Message.Send_eq] at hsome
            dsimp only at hsome
            cases hg : server.GetConn m.EndpointPath m.ConnId with
            | none =>
                rw [hg] at hsome
                dsimp only at hsome
                injection hsome with h1
                injection h1 with hpath hcid
                exact ⟨m, hom0, hpath, hcid, by rw [hpath, hcid] at hg; exact hg⟩
            | some conn =>
                rw [hg] at hsome
                dsimp only at hsome
                rcases Option.map_eq_some'.mp hsome with ⟨s, hs, habs⟩
                exact Err.noConfusion habs

/-- C7 witness: a concrete EndpointMessageError aggregate addressed to "/chat" whose
single ConnNotFoundError pinpoints the absent id "ghost" among the listed targets. -/
theorem c7_witness :
    ("/chat" : EndpointPath) = "/chat" ∧
    ∀ pp cid, Err.connNotFound pp cid ∈ [Err.connNotFound "/chat" "ghost"] →
      pp = "/chat" ∧ cid ∈ (["ghost", "u1"] : List ConnId) ∧
      (Endpoint.mk "/chat" none [("u1", ⟨fun _ _ => none⟩)]).GetConn cid = none :=
  (c7_aggregate_addressing ⟨"/chat", none, [("u1", ⟨fun _ _ => none⟩)]⟩
      ⟨1, [7], ["ghost", "u1"]⟩ (Manager.mk []) ⟨1, "/x", []⟩ []).1
    "/chat" [Err.connNotFound "/chat" "ghost"] rfl

/-- C7 counterexample to the claim as stated: two registries in which different
connections fail produce byte-for-byte identical aggregates, because a transport write
failure is carried as-is with no connection id; the caller therefore cannot determine
from the aggregate which target failed. In the first manager the write on "u1" fails and
"u2" succeeds; in the second the roles are swapped; both broadcasts return the same
error. -/
theorem c7_counterexample :
    ((BroadcastMessage.mk 1 "/chat" [104]).Send
        ⟨[("/chat", ⟨"/chat", none,
          [("u1", ⟨fun _ _ => some "boom"⟩), ("u2", ⟨fun _ _ => none⟩)]⟩)]⟩).2.2
      = some (Err.broadcastMessage "/chat" [Err.writeFail "boom"]) ∧
    ((BroadcastMessage.mk 1 "/chat" [104]).Send
        ⟨[("/chat", ⟨"/chat", none,
          [("u1", ⟨fun _ _ => none⟩), ("u2", ⟨fun _ _ => some "boom"⟩)]⟩)]⟩).2.2
      = some (Err.broadcastMessage "/chat" [Err.writeFail "boom"]) ∧
    (((⟨[("/chat", ⟨"/chat", none,
          [("u1", ⟨fun _ _ => some "boom"⟩), ("u2", ⟨fun _ _ => none⟩)]⟩)]⟩ : Manager).GetConn
        "/chat" "u1").map fun c => (c.writeResult 1 [104]).isSome) = some true ∧
    (((⟨[("/chat", ⟨"/chat", none,
          [("u1", ⟨fun _ _ => none⟩), ("u2", ⟨fun _ _ => some "boom"⟩)]⟩)]⟩ : Manager).GetConn
        "/chat" "u1").map fun c => (c.writeResult 1 [104]).isSome) = some false :=
  ⟨rfl, rfl, rfl, rfl⟩

end Nexus
